import Mathlib

/-
Verification of the zfs reconciliation modules.

Sources embedded here:
  * src/plugins/modules/zfs_manager.py  (the full variant: pools, volumes,
    caches, hot spares) -- embedded as `pluginsRun` and its branch functions.
  * src/library/zfs_manager.py          (the check-mode variant) -- embedded
    as `libRun`.
  * src/library/kuit_zfs_zpool.py       (the oldest variant) -- embedded as
    `kuitRun`.

The external storage subsystem (the zpool / zfs command surface) is modelled
by `ZfsState` together with the `env*` effect functions: a pool or volume
exists after its create command ran, a spare or cache device is attached
after the corresponding add command ran, destroy removes the resource.  The
textual scan of `zpool status` output performed by `hotspare_exists` and
`cache_device_exists` in the source is modelled as exact membership of the
(pool, device) pair in the subsystem state.  Commands are assumed to succeed
(the idempotence and planning claims all speak about runs in which no
external command failed).  Inspection commands (zpool list, zfs list, zpool
status) read the state directly and are not recorded in the command trace;
the recorded trace holds exactly the argument vectors handed to
subprocess.run by the mutating helpers and by set_zpool_options.
-/

/-- Actual state of the storage subsystem, re-derived on every run.
`caches` and `spares` hold (pool, device) pairs. -/
structure ZfsState where
  pools : List String
  volumes : List String
  caches : List (String × String)
  spares : List (String × String)
deriving DecidableEq

/-- Python truthiness of a string: non-empty strings are truthy. -/
def pyTruthyStr (s : String) : Bool := !(s == "")

/-- Python truthiness of an optional string parameter (None and the empty
string are falsy). -/
def pyTruthyOptStr : Option String → Bool
  | none => false
  | some s => pyTruthyStr s

/-- Python truthiness of an optional bool (None is falsy). -/
def pyTruthyOptBool : Option Bool → Bool
  | none => false
  | some b => b

/-- check_zpool_exists from src/plugins/modules/zfs_manager.py (and the
identical function in src/library/zfs_manager.py): success of
`zpool list name` is modelled as membership of the name in the pool set. -/
def check_zpool_exists (s : ZfsState) (name : String) : Bool :=
  decide (name ∈ s.pools)

/-- check_volume_exists: success of `zfs list name`. -/
def check_volume_exists (s : ZfsState) (name : String) : Bool :=
  decide (name ∈ s.volumes)

/-- cache_device_exists from src/plugins/modules/zfs_manager.py: the source
scans the stdout of `zpool status zpool` for the marker "cache" and the
device path; modelled as membership of the (pool, device) pair. -/
def cache_device_exists (s : ZfsState) (zpool device : String) : Bool :=
  decide ((zpool, device) ∈ s.caches)

/-- hotspare_exists from src/plugins/modules/zfs_manager.py: the source
scans the stdout of `zpool status zpool` for the marker "spares" and the
device; modelled as membership of the (pool, device) pair. -/
def hotspare_exists (s : ZfsState) (zpool device : String) : Bool :=
  decide ((zpool, device) ∈ s.spares)

/-- check_for_zpool from src/library/kuit_zfs_zpool.py: same `zpool list`
probe as check_zpool_exists. -/
def check_for_zpool (s : ZfsState) (name : String) : Bool :=
  decide (name ∈ s.pools)

/-- Environment effect of `zpool create name ...`. -/
def envCreatePool (name : String) (s : ZfsState) : ZfsState :=
  ⟨name :: s.pools, s.volumes, s.caches, s.spares⟩

/-- Environment effect of `zpool destroy name`. -/
def envDestroyPool (name : String) (s : ZfsState) : ZfsState :=
  ⟨s.pools.filter (fun q => decide (q ≠ name)), s.volumes, s.caches, s.spares⟩

/-- Environment effect of `zfs create -V size name`. -/
def envCreateVolume (name : String) (s : ZfsState) : ZfsState :=
  ⟨s.pools, name :: s.volumes, s.caches, s.spares⟩

/-- Environment effect of `zfs destroy name`. -/
def envDestroyVolume (name : String) (s : ZfsState) : ZfsState :=
  ⟨s.pools, s.volumes.filter (fun q => decide (q ≠ name)), s.caches, s.spares⟩

/-- Environment effect of `zpool add zpool cache device`. -/
def envAddCache (zpool device : String) (s : ZfsState) : ZfsState :=
  ⟨s.pools, s.volumes, (zpool, device) :: s.caches, s.spares⟩

/-- Environment effect of `zpool add zpool spare device`. -/
def envAddSpare (zpool device : String) (s : ZfsState) : ZfsState :=
  ⟨s.pools, s.volumes, s.caches, (zpool, device) :: s.spares⟩

/-- create_zpool from src/plugins/modules/zfs_manager.py (identical in
src/library/zfs_manager.py): command = ["zpool","create",name], the raid
type appended when it differs from "stripe", then the disks. -/
def create_zpool_cmd (name raid_type : String) (disks : List String) :
    List String :=
  ["zpool", "create", name] ++
    (if raid_type ≠ "stripe" then [raid_type] else []) ++ disks

/-- create_volume: command = ["zfs","create","-V",size,name]. -/
def create_volume_cmd (name size : String) : List String :=
  ["zfs", "create", "-V", size, name]

/-- destroy_zpool: command = ["zpool","destroy",name].  The destroy_zpool
helper of src/library/kuit_zfs_zpool.py builds the same vector. -/
def destroy_zpool_cmd (name : String) : List String :=
  ["zpool", "destroy", name]

/-- destroy_volume: command = ["zfs","destroy",name]. -/
def destroy_volume_cmd (name : String) : List String :=
  ["zfs", "destroy", name]

/-- add_cache_to_zpool: command = ["zpool","add",zpool,"cache",device]. -/
def add_cache_cmd (zpool device : String) : List String :=
  ["zpool", "add", zpool, "cache", device]

/-- add_hotspare: command = ["zpool","add",zpool,"spare",device]. -/
def add_hotspare_cmd (zpool device : String) : List String :=
  ["zpool", "add", zpool, "spare", device]

/-- set_zpool_options from src/plugins/modules/zfs_manager.py and
src/library/zfs_manager.py: one `zfs set option name` command per option.
The Python function has no return statement, so its value is None; the
second component records that returned value (used by run_module as
option_changed). -/
def set_zpool_options (name : String) (options : List String) :
    List (List String) × Option Bool :=
  (options.map (fun option => ["zfs", "set", option, name]), none)

/-- Keys of the raid_min_disks dict in validate_raid_disks, in insertion
order (used for the invalid-type error message). -/
def raid_min_disks_keys : List String :=
  ["stripe", "mirror", "raidz", "raidz1", "raidz2", "raidz3"]

/-- Lookup in the raid_min_disks dict of validate_raid_disks. -/
def raid_min_disks_get (raid_type : String) : Option Nat :=
  if raid_type = "stripe" then some 1
  else if raid_type = "mirror" then some 2
  else if raid_type = "raidz" then some 3
  else if raid_type = "raidz1" then some 3
  else if raid_type = "raidz2" then some 4
  else if raid_type = "raidz3" then some 5
  else none

/-- Message of the invalid-raid-type rejection in validate_raid_disks. -/
def invalid_raid_msg (raid_type : String) : String :=
  "Invalid RAID type \x27" ++ raid_type ++ "\x27. Valid types are: " ++
    String.intercalate ", " raid_min_disks_keys

/-- Python repr of a list of strings, as interpolated by the f-string of
the too-few-disks message. -/
def py_list_repr (l : List String) : String :=
  "[" ++ String.intercalate ", " (l.map (fun d => "\x27" ++ d ++ "\x27")) ++ "]"

/-- Message of the too-few-disks rejection in validate_raid_disks. -/
def too_few_disks_msg (raid_type : String) (min_disks : Nat)
    (disks : List String) : String :=
  "RAID type \x27" ++ raid_type ++ "\x27 requires at least " ++
    toString min_disks ++ " disks. Provided disks: " ++
    toString disks.length ++ " (" ++ py_list_repr disks ++ ")"

/-- validate_raid_disks from src/plugins/modules/zfs_manager.py: raidz1 is
renamed to raidz, then the minimum disk count is looked up; an unknown type
or too few disks yields a fail_json message (modelled as `some msg`),
otherwise validation passes (`none`). -/
def validate_raid_disks (raid_type : String) (disks : List String) :
    Option String :=
  let rt := if raid_type = "raidz1" then "raidz" else raid_type
  match raid_min_disks_get rt with
  | none => some (invalid_raid_msg rt)
  | some min_disks =>
      if disks.length < min_disks then some (too_few_disks_msg rt min_disks disks)
      else none

/-- Resource kind of src/plugins/modules/zfs_manager.py; the argument spec
restricts the type parameter to these choices. -/
inductive ObjType
  | zpool
  | volume
  | cache
deriving DecidableEq

/-- Lifecycle intent; the argument spec of src/plugins/modules/zfs_manager.py
restricts state to these choices. -/
inductive Intent
  | present
  | absent
deriving DecidableEq

/-- Parameters of src/plugins/modules/zfs_manager.py run_module, as
restricted by its argument spec.  check_mode mirrors module.check_mode; the
module declares supports_check_mode=False, so at runtime it is always
false, but the source still reads it and the embedding keeps it. -/
structure PParams where
  name : String
  type : ObjType
  size : Option String
  zpool : Option String
  raidz : String
  disks : List String
  hot_spare : List String
  compression : Bool
  canmount : Bool
  state : Intent
  check_mode : Bool
deriving DecidableEq

/-- Terminal outcome of one module run: module.exit_json with its changed
flag and optional msg, module.fail_json with its msg, or falling off the
end of run_module without either (only reachable for unhandled state
strings of the library variants). -/
inductive Outcome
  | exitJson (changed : Bool) (msg : Option String)
  | failJson (msg : String)
  | noExit
deriving DecidableEq

/-- Changed verdict reported by an outcome (none when the run failed or did
not exit). -/
def changedOf : Outcome → Option Bool
  | .exitJson c _ => some c
  | .failJson _ => none
  | .noExit => none

/-- Result of one run of src/plugins/modules/zfs_manager.py: the outcome,
the final subsystem state, and the trace of mutating commands issued. -/
structure RunOut where
  outcome : Outcome
  state : ZfsState
  cmds : List (List String)
deriving DecidableEq

/-- Option strings computed at the top of run_module in
src/plugins/modules/zfs_manager.py from the two boolean parameters. -/
def pool_options (p : PParams) : List String :=
  [(if p.compression then "compression=on" else "compression=off"),
   (if p.canmount then "canmount=on" else "canmount=off")]

/-- Message of the spares-without-disks rejection in run_module. -/
def spares_without_disks_msg (name : String) : String :=
  "Cannot create zpool \x27" ++ name ++ "\x27 with hot spares but without disks."

/-- Check-mode message of the zpool absent branch. -/
def would_destroy_zpool_msg (name : String) : String :=
  "Would destroy zpool \x27" ++ name ++ "\x27 (check mode)."

/-- Message of the missing-size rejection of the volume branch. -/
def size_required_volume_msg : String :=
  "\x27size\x27 is required when type is \x27volume\x27"

/-- Check-mode message for an already existing volume. -/
def volume_exists_check_msg (name : String) : String :=
  "Volume \x27" ++ name ++ "\x27 already exists (check mode)."

/-- Message for an already existing volume after options were re-applied. -/
def volume_exists_msg (name : String) : String :=
  "Volume \x27" ++ name ++ "\x27 exists. Options updated if necessary."

/-- Check-mode message before creating a volume. -/
def would_create_volume_msg (name : String) : String :=
  "Would create volume \x27" ++ name ++ "\x27 (check mode)."

/-- Check-mode message before destroying a volume. -/
def would_destroy_volume_msg (name : String) : String :=
  "Would destroy volume \x27" ++ name ++ "\x27 (check mode)."

/-- Message of the missing-size-or-zpool rejection of the cache branch. -/
def size_zpool_required_msg : String :=
  "\x27size\x27 and \x27zpool\x27 are required when type is \x27cache\x27"

/-- Check-mode message before creating a cache backing volume. -/
def would_create_cache_vol_msg (name : String) : String :=
  "Would create cache volume \x27" ++ name ++ "\x27 (check mode)."

/-- Check-mode message before attaching a cache device. -/
def would_add_cache_msg (name zpool : String) : String :=
  "Would add cache device \x27/dev/zvol/" ++ name ++ "\x27 to zpool \x27" ++
    zpool ++ "\x27 (check mode)."

/-- Final message of the cache branch. -/
def cache_ensured_msg (name zpool : String) : String :=
  "Cache device \x27" ++ name ++ "\x27 ensured in zpool \x27" ++ zpool ++ "\x27"

/-- Hot-spare loop of the zpool present branch: for each declared spare that
hotspare_exists does not report as attached, issue add_hotspare and raise
the changed flag.  The state is threaded because each add immediately shows
up in subsequent `zpool status` inspections. -/
def hot_spare_loop (name : String) (spares : List String) (s : ZfsState)
    (cmds : List (List String)) (changed : Bool) :
    ZfsState × List (List String) × Bool :=
  match spares with
  | [] => (s, cmds, changed)
  | spare :: rest =>
      if hotspare_exists s name spare then
        hot_spare_loop name rest s cmds changed
      else
        hot_spare_loop name rest (envAddSpare name spare s)
          (cmds ++ [add_hotspare_cmd name spare]) true

/-- Tail of the zpool present branch after the optional creation step:
set_zpool_options is called (its None return is tested as option_changed),
then the hot-spare loop runs, then exit_json reports the aggregated changed
flag. -/
def zpool_present_tail (p : PParams) (s : ZfsState) (cmds : List (List String))
    (changed : Bool) : RunOut :=
  let so := set_zpool_options p.name (pool_options p)
  let changed1 := if pyTruthyOptBool so.2 then true else changed
  let r := hot_spare_loop p.name p.hot_spare s (cmds ++ so.1) changed1
  ⟨Outcome.exitJson r.2.2 none, r.1, r.2.1⟩

/-- Zpool present branch of run_module in src/plugins/modules/zfs_manager.py:
reject hot spares without disks on a missing pool, validate and create a
missing pool, then options and hot spares. -/
def zpool_present_run (p : PParams) (s0 : ZfsState) : RunOut :=
  let pool_exists := check_zpool_exists s0 p.name
  if !pool_exists && !p.hot_spare.isEmpty && p.disks.isEmpty then
    ⟨Outcome.failJson (spares_without_disks_msg p.name), s0, []⟩
  else if !pool_exists then
    match validate_raid_disks p.raidz p.disks with
    | some msg => ⟨Outcome.failJson msg, s0, []⟩
    | none =>
        zpool_present_tail p (envCreatePool p.name s0)
          [create_zpool_cmd p.name p.raidz p.disks] true
  else
    zpool_present_tail p s0 [] false

/-- Zpool absent branch of run_module in src/plugins/modules/zfs_manager.py. -/
def zpool_absent_run (p : PParams) (s0 : ZfsState) : RunOut :=
  if check_zpool_exists s0 p.name then
    if p.check_mode then
      ⟨Outcome.exitJson true (some (would_destroy_zpool_msg p.name)), s0, []⟩
    else
      ⟨Outcome.exitJson true none, envDestroyPool p.name s0,
        [destroy_zpool_cmd p.name]⟩
  else ⟨Outcome.exitJson false none, s0, []⟩

/-- Volume branch of run_module in src/plugins/modules/zfs_manager.py: the
size parameter is required for both intents; creation and destruction are
guarded by check_volume_exists. -/
def volume_run (p : PParams) (s0 : ZfsState) : RunOut :=
  if !(pyTruthyOptStr p.size) then
    ⟨Outcome.failJson size_required_volume_msg, s0, []⟩
  else
    let volume_exists := check_volume_exists s0 p.name
    match p.state with
    | .present =>
        if volume_exists then
          if p.check_mode then
            ⟨Outcome.exitJson false (some (volume_exists_check_msg p.name)), s0, []⟩
          else
            ⟨Outcome.exitJson false (some (volume_exists_msg p.name)), s0,
              (set_zpool_options p.name (pool_options p)).1⟩
        else
          if p.check_mode then
            ⟨Outcome.exitJson true (some (would_create_volume_msg p.name)), s0, []⟩
          else
            ⟨Outcome.exitJson true none, envCreateVolume p.name s0,
              create_volume_cmd p.name (p.size.getD "") ::
                (set_zpool_options p.name (pool_options p)).1⟩
    | .absent =>
        if volume_exists then
          if p.check_mode then
            ⟨Outcome.exitJson true (some (would_destroy_volume_msg p.name)), s0, []⟩
          else
            ⟨Outcome.exitJson true none, envDestroyVolume p.name s0,
              [destroy_volume_cmd p.name]⟩
        else ⟨Outcome.exitJson false none, s0, []⟩

/-- Cache branch of run_module in src/plugins/modules/zfs_manager.py: size
and target zpool are required; the backing volume is created when missing,
then the device /dev/zvol/ ++ name is attached when the pool does not
already list it.  The branch never consults the state parameter. -/
def cache_run (p : PParams) (s0 : ZfsState) : RunOut :=
  if !(pyTruthyOptStr p.size) || !(pyTruthyOptStr p.zpool) then
    ⟨Outcome.failJson size_zpool_required_msg, s0, []⟩
  else
    let zvol_name := p.name
    let size := p.size.getD ""
    let zpool := p.zpool.getD ""
    let volume_exists := check_volume_exists s0 zvol_name
    if !volume_exists && p.check_mode then
      ⟨Outcome.exitJson true (some (would_create_cache_vol_msg zvol_name)), s0, []⟩
    else
      let s1 := if volume_exists then s0 else envCreateVolume zvol_name s0
      let cmds1 : List (List String) :=
        if volume_exists then [] else [create_volume_cmd zvol_name size]
      let changed1 := !volume_exists
      if !(cache_device_exists s1 zpool ("/dev/zvol/" ++ zvol_name)) then
        if p.check_mode then
          ⟨Outcome.exitJson true (some (would_add_cache_msg zvol_name zpool)),
            s1, cmds1⟩
        else
          ⟨Outcome.exitJson true (some (cache_ensured_msg zvol_name zpool)),
            envAddCache zpool ("/dev/zvol/" ++ zvol_name) s1,
            cmds1 ++ [add_cache_cmd zpool ("/dev/zvol/" ++ zvol_name)]⟩
      else
        ⟨Outcome.exitJson changed1 (some (cache_ensured_msg zvol_name zpool)),
          s1, cmds1⟩

/-- run_module of src/plugins/modules/zfs_manager.py, dispatching on the
resource kind and intent. -/
def pluginsRun (p : PParams) (s0 : ZfsState) : RunOut :=
  match p.type, p.state with
  | .zpool, .present => zpool_present_run p s0
  | .zpool, .absent => zpool_absent_run p s0
  | .volume, _ => volume_run p s0
  | .cache, _ => cache_run p s0

/-- Resource kind of src/library/zfs_manager.py; its argument spec restricts
the type parameter to these two choices. -/
inductive LType
  | zpool
  | volume
deriving DecidableEq

/-- Parameters of src/library/zfs_manager.py run_module.  compression and
canmount are declared as strings there (default off); state is a free
string (the argument-spec line for state carries a stray quote token in the
source, its declared default is present); the module declares
supports_check_mode=True, so check_mode is reachable. -/
structure LParams where
  name : String
  type : LType
  size : Option String
  raidz : String
  disks : List String
  compression : String
  canmount : String
  state : String
  check_mode : Bool
deriving DecidableEq

/-- Option strings computed by src/library/zfs_manager.py run_module: the
string parameters are tested for Python truthiness only. -/
def lib_options (p : LParams) : List String :=
  [(if pyTruthyStr p.compression then "compression=on" else "compression=off"),
   (if pyTruthyStr p.canmount then "canmount=on" else "canmount=off")]

/-- Check-mode message for an already existing zpool in the library variant. -/
def lib_zpool_exists_check_msg (name : String) : String :=
  "Zpool \x27" ++ name ++ "\x27 already exists (check mode)."

/-- Message for an already existing zpool after options were re-applied. -/
def lib_zpool_exists_msg (name : String) : String :=
  "Zpool \x27" ++ name ++ "\x27 exists. Options updated if necessary."

/-- Check-mode message before creating a zpool in the library variant. -/
def lib_would_create_zpool_msg (name : String) : String :=
  "Would create zpool \x27" ++ name ++ "\x27 (check mode)."

/-- run_module of src/library/zfs_manager.py.  Within one run no inspector
is consulted after a mutation, so the subsystem state is only read; the
result is the outcome together with the issued command trace.  State
strings other than present and absent fall through every branch without an
exit (noExit). -/
def libRun (p : LParams) (s : ZfsState) : Outcome × List (List String) :=
  if p.type = LType.volume ∧ pyTruthyOptStr p.size = false then
    (Outcome.failJson size_required_volume_msg, [])
  else
    match p.type with
    | .zpool =>
        let pool_exists := check_zpool_exists s p.name
        if p.state = "present" then
          if pool_exists then
            if p.check_mode then
              (Outcome.exitJson false (some (lib_zpool_exists_check_msg p.name)), [])
            else
              (Outcome.exitJson false (some (lib_zpool_exists_msg p.name)),
                (set_zpool_options p.name (lib_options p)).1)
          else
            if p.check_mode then
              (Outcome.exitJson true (some (lib_would_create_zpool_msg p.name)), [])
            else
              (Outcome.exitJson true none,
                create_zpool_cmd p.name p.raidz p.disks ::
                  (set_zpool_options p.name (lib_options p)).1)
        else if p.state = "absent" then
          if pool_exists then
            if p.check_mode then
              (Outcome.exitJson true (some (would_destroy_zpool_msg p.name)), [])
            else (Outcome.exitJson true none, [destroy_zpool_cmd p.name])
          else (Outcome.exitJson false none, [])
        else (Outcome.noExit, [])
    | .volume =>
        let volume_exists := check_volume_exists s p.name
        if p.state = "present" then
          if volume_exists then
            if p.check_mode then
              (Outcome.exitJson false (some (volume_exists_check_msg p.name)), [])
            else
              (Outcome.exitJson false (some (volume_exists_msg p.name)),
                (set_zpool_options p.name (lib_options p)).1)
          else
            if p.check_mode then
              (Outcome.exitJson true (some (would_create_volume_msg p.name)), [])
            else
              (Outcome.exitJson true none,
                create_volume_cmd p.name (p.size.getD "") ::
                  (set_zpool_options p.name (lib_options p)).1)
        else if p.state = "absent" then
          if volume_exists then
            if p.check_mode then
              (Outcome.exitJson true (some (would_destroy_volume_msg p.name)), [])
            else (Outcome.exitJson true none, [destroy_volume_cmd p.name])
          else (Outcome.exitJson false none, [])
        else (Outcome.noExit, [])

/-- Parameters of src/library/kuit_zfs_zpool.py run_module.  type is the
redundancy scheme there (default stripe), compression and canmount are
strings compared against the literal string True, state is free. -/
structure KParams where
  name : String
  type : String
  disks : List String
  compression : String
  canmount : String
  state : String
  directory : Option String
  check_mode : Bool
deriving DecidableEq

/-- create_zpool of src/library/kuit_zfs_zpool.py, two-argument form
(name, disks): command = ["zpool","create",name] ++ disks. -/
def kuit_create_zpool_stripe_cmd (name : String) (disks : List String) :
    List String :=
  ["zpool", "create", name] ++ disks

/-- create_zpool of src/library/kuit_zfs_zpool.py, three-argument form
(name, raid, disks): command = ["zpool","create",name,raid] ++ disks. -/
def kuit_create_zpool_raid_cmd (name raid : String) (disks : List String) :
    List String :=
  ["zpool", "create", name, raid] ++ disks

/-- set_zpool_option of src/library/kuit_zfs_zpool.py: one single command
["zfs","set"] extended with every option and finally the pool name. -/
def kuit_set_zpool_option_cmd (zpool : String) (options : List String) :
    List String :=
  ["zfs", "set"] ++ options ++ [zpool]

/-- export_zpool of src/library/kuit_zfs_zpool.py. -/
def kuit_export_cmd (zpool : String) : List String :=
  ["zpool", "export", zpool]

/-- import_zpool of src/library/kuit_zfs_zpool.py, with or without the
directory argument. -/
def kuit_import_cmd (zpool : String) (dir : Option String) : List String :=
  match dir with
  | some d => ["zpool", "import", "-d", d, zpool]
  | none => ["zpool", "import", zpool]

/-- run_module of src/library/kuit_zfs_zpool.py.  In this model every
subprocess succeeds, so change_state always records changed=True and never
takes its fail_json arm; absent-on-absent and import-on-present still reach
their explicit fail_json calls.  The export branch additionally polls
`zpool import` against wall-clock time and writes a marker file; that loop
only affects the message field and an external file, neither of which is
modelled, so export is recorded as the export command alone.  Unhandled
state strings reach the final exit_json with changed=False. -/
def kuitRun (p : KParams) (s : ZfsState) : Outcome × List (List String) :=
  if p.state = "present" then
    let compress := if p.compression = "True" then "on" else "off"
    let mount := if p.canmount = "True" then "on" else "off"
    let options := ["compression=" ++ compress, "canmount=" ++ mount]
    if !(check_for_zpool s p.name) then
      if p.check_mode then
        (Outcome.exitJson true (some ("Would create " ++ p.name)), [])
      else if p.type = "stripe" then
        (Outcome.exitJson true none,
          [kuit_create_zpool_stripe_cmd p.name p.disks,
           kuit_set_zpool_option_cmd p.name options])
      else
        (Outcome.exitJson true none,
          [kuit_create_zpool_raid_cmd p.name p.type p.disks,
           kuit_set_zpool_option_cmd p.name options])
    else
      if p.check_mode then
        (Outcome.exitJson false (some ("Exist " ++ p.name)), [])
      else
        (Outcome.exitJson true none, [kuit_set_zpool_option_cmd p.name options])
  else if p.state = "absent" then
    if check_for_zpool s p.name then
      if p.check_mode then
        (Outcome.exitJson true (some ("Would delete " ++ p.name)), [])
      else (Outcome.exitJson true none, [destroy_zpool_cmd p.name])
    else
      if p.check_mode then
        (Outcome.exitJson false (some ("Already absent " ++ p.name)), [])
      else (Outcome.failJson "Unable to destroy zpool. No such zpool", [])
  else if p.state = "import" then
    if !(check_for_zpool s p.name) then
      (Outcome.exitJson true none,
        [kuit_import_cmd p.name
          (if pyTruthyOptStr p.directory then p.directory else none)])
    else (Outcome.failJson "Unable to import zpool. No such zpool", [])
  else if p.state = "export" then
    if check_for_zpool s p.name then
      (Outcome.exitJson true none, [kuit_export_cmd p.name])
    else
      if p.check_mode then
        (Outcome.exitJson false (some ("No zpool to export " ++ p.name)), [])
      else (Outcome.failJson "Unable to destroy zpool. No such zpool", [])
  else (Outcome.exitJson false none, [])

/-- Empty subsystem state. -/
def emptyState : ZfsState := ⟨[], [], [], []⟩

/-- State in which only the pool tank exists. -/
def tankState : ZfsState := ⟨["tank"], [], [], []⟩

/-- State in which the pool tank exists with the spare sdc attached. -/
def tankSpareState : ZfsState := ⟨["tank"], [], [], [("tank", "sdc")]⟩

/-- Example request: create the mirror pool tank from sda and sdb.
Fields: name, type, size, zpool, raidz, disks, hot_spare, compression,
canmount, state, check_mode. -/
def pPoolCreate : PParams :=
  ⟨"tank", ObjType.zpool, none, none, "mirror", ["sda", "sdb"], [], true,
    false, Intent.present, false⟩

/-- Example request: pool tank present with hot spare sdc. -/
def pPoolSpare : PParams :=
  ⟨"tank", ObjType.zpool, none, none, "stripe", ["sda"], ["sdc"], true,
    false, Intent.present, false⟩

/-- Example request: pool with a bogus scheme and no disks against an
existing pool. -/
def pPoolBogus : PParams :=
  ⟨"tank", ObjType.zpool, none, none, "bogus", [], [], false, false,
    Intent.present, false⟩

/-- Example request: hot spares declared but no member disks. -/
def pPoolSpareNoDisks : PParams :=
  ⟨"tank", ObjType.zpool, none, none, "stripe", [], ["sdc"], false, false,
    Intent.present, false⟩

/-- Example request: raidz2 pool on three disks. -/
def pPoolRaidz2Three : PParams :=
  ⟨"tank", ObjType.zpool, none, none, "raidz2", ["sda", "sdb", "sdc"], [],
    false, false, Intent.present, false⟩

/-- Example request: pool tank absent. -/
def pPoolAbsent : PParams :=
  ⟨"tank", ObjType.zpool, none, none, "stripe", [], [], false, false,
    Intent.absent, false⟩

/-- Example request: cache volume cachevol of 10G on pool tank. -/
def pCache : PParams :=
  ⟨"cachevol", ObjType.cache, some "10G", some "tank", "stripe", [], [],
    false, false, Intent.present, false⟩

/-- Example kuit request: stripe pool tank from sda, state present.
Fields: name, type, disks, compression, canmount, state, directory,
check_mode. -/
def kPoolCreate : KParams :=
  ⟨"tank", "stripe", ["sda"], "off", "off", "present", none, false⟩

/-- Example kuit request: pool tank absent. -/
def kPoolAbsent : KParams :=
  ⟨"tank", "stripe", [], "off", "off", "absent", none, false⟩

/-- A pool name registered by envCreatePool is seen by check_zpool_exists. -/
theorem check_zpool_exists_envCreatePool (name : String) (s : ZfsState) :
    check_zpool_exists (envCreatePool name s) name = true := by
  simp [check_zpool_exists, envCreatePool]

/-- After envDestroyPool the pool name is gone. -/
theorem check_zpool_exists_envDestroyPool (name : String) (s : ZfsState) :
    check_zpool_exists (envDestroyPool name s) name = false := by
  simp [check_zpool_exists, envDestroyPool, List.mem_filter]

/-- A volume name registered by envCreateVolume is seen by
check_volume_exists. -/
theorem check_volume_exists_envCreateVolume (name : String) (s : ZfsState) :
    check_volume_exists (envCreateVolume name s) name = true := by
  simp [check_volume_exists, envCreateVolume]

/-- After envDestroyVolume the volume name is gone. -/
theorem check_volume_exists_envDestroyVolume (name : String) (s : ZfsState) :
    check_volume_exists (envDestroyVolume name s) name = false := by
  simp [check_volume_exists, envDestroyVolume, List.mem_filter]

/-- Creating a volume does not disturb the cache membership inspector. -/
theorem cache_device_exists_envCreateVolume (n zpool device : String)
    (s : ZfsState) :
    cache_device_exists (envCreateVolume n s) zpool device =
      cache_device_exists s zpool device := rfl

/-- A cache device registered by envAddCache is seen by
cache_device_exists. -/
theorem cache_device_exists_envAddCache (zpool device : String) (s : ZfsState) :
    cache_device_exists (envAddCache zpool device s) zpool device = true := by
  simp [cache_device_exists, envAddCache]

/-- Attaching a cache device does not disturb the volume inspector. -/
theorem check_volume_exists_envAddCache (zpool device n : String)
    (s : ZfsState) :
    check_volume_exists (envAddCache zpool device s) n =
      check_volume_exists s n := rfl

/-- A spare registered by envAddSpare is seen by hotspare_exists. -/
theorem hotspare_exists_envAddSpare (zpool device : String) (s : ZfsState) :
    hotspare_exists (envAddSpare zpool device s) zpool device = true := by
  simp [hotspare_exists, envAddSpare]

/-- Attaching one spare preserves every previously attached spare. -/
theorem hotspare_exists_envAddSpare_mono (zpool a n d : String) (s : ZfsState)
    (h : hotspare_exists s n d = true) :
    hotspare_exists (envAddSpare zpool a s) n d = true := by
  simp only [hotspare_exists, envAddSpare, decide_eq_true_eq] at h ⊢
  exact List.mem_cons_of_mem _ h

/-- The hot-spare loop never touches the pool set. -/
theorem hot_spare_loop_pools (n : String) (l : List String) (s : ZfsState)
    (cmds : List (List String)) (ch : Bool) :
    (hot_spare_loop n l s cmds ch).1.pools = s.pools := by
  induction l generalizing s cmds ch with
  | nil => rfl
  | cons a rest ih =>
      simp only [hot_spare_loop]
      split
      · exact ih s cmds ch
      · exact ih (envAddSpare n a s) _ true

/-- A spare attached before the hot-spare loop is still attached after it. -/
theorem hot_spare_loop_mono (n : String) (l : List String) (s : ZfsState)
    (cmds : List (List String)) (ch : Bool) (d : String)
    (h : hotspare_exists s n d = true) :
    hotspare_exists (hot_spare_loop n l s cmds ch).1 n d = true := by
  induction l generalizing s cmds ch with
  | nil => exact h
  | cons a rest ih =>
      simp only [hot_spare_loop]
      split
      · exact ih s cmds ch h
      · exact ih (envAddSpare n a s) _ true
          (hotspare_exists_envAddSpare_mono n a n d s h)

/-- Every spare the loop visited is attached afterwards. -/
theorem hot_spare_loop_attached (n : String) (l : List String) (s : ZfsState)
    (cmds : List (List String)) (ch : Bool) (d : String) (h : d ∈ l) :
    hotspare_exists (hot_spare_loop n l s cmds ch).1 n d = true := by
  induction l generalizing s cmds ch with
  | nil => cases h
  | cons a rest ih =>
      simp only [hot_spare_loop]
      rcases List.mem_cons.mp h with rfl | hm
      · split
        · next hex => exact hot_spare_loop_mono n rest s cmds ch d hex
        · exact hot_spare_loop_mono n rest _ _ true d
            (hotspare_exists_envAddSpare n d s)
      · split
        · exact ih s cmds ch hm
        · exact ih (envAddSpare n a s) _ true hm

/-- When every listed spare is already attached the loop is the identity. -/
theorem hot_spare_loop_noop (n : String) (l : List String) (s : ZfsState)
    (cmds : List (List String)) (ch : Bool)
    (h : ∀ d ∈ l, hotspare_exists s n d = true) :
    hot_spare_loop n l s cmds ch = (s, cmds, ch) := by
  induction l with
  | nil => rfl
  | cons a rest ih =>
      simp only [hot_spare_loop]
      rw [if_pos (h a (List.mem_cons_self a rest))]
      exact ih fun d hd => h d (List.mem_cons_of_mem a hd)

/-- The hot-spare loop only appends to the incoming command trace. -/
theorem hot_spare_loop_cmds_extend (n : String) (l : List String) (s : ZfsState)
    (cmds : List (List String)) (ch : Bool) :
    ∃ extra, (hot_spare_loop n l s cmds ch).2.1 = cmds ++ extra := by
  induction l generalizing s cmds ch with
  | nil => exact ⟨[], by simp [hot_spare_loop]⟩
  | cons a rest ih =>
      simp only [hot_spare_loop]
      split
      · exact ih s cmds ch
      · obtain ⟨extra, hx⟩ := ih (envAddSpare n a s)
          (cmds ++ [add_hotspare_cmd n a]) true
        exact ⟨add_hotspare_cmd n a :: extra, by simp [hx]⟩

/-- The zpool present tail preserves the pool set. -/
theorem zpool_present_tail_pools (p : PParams) (s : ZfsState)
    (cmds : List (List String)) (ch : Bool) :
    (zpool_present_tail p s cmds ch).state.pools = s.pools := by
  simp only [zpool_present_tail]
  exact hot_spare_loop_pools p.name p.hot_spare s _ _

/-- After the zpool present tail every declared hot spare is attached. -/
theorem zpool_present_tail_attached (p : PParams) (s : ZfsState)
    (cmds : List (List String)) (ch : Bool) (d : String)
    (h : d ∈ p.hot_spare) :
    hotspare_exists (zpool_present_tail p s cmds ch).state p.name d = true := by
  simp only [zpool_present_tail]
  exact hot_spare_loop_attached p.name p.hot_spare s _ _ d h

/-- With changed=false on entry and every declared spare already attached,
the zpool present tail reports changed=false and issues only the two
option-setting commands. -/
theorem zpool_present_tail_unchanged (p : PParams) (s : ZfsState)
    (cmds : List (List String))
    (h : ∀ d ∈ p.hot_spare, hotspare_exists s p.name d = true) :
    zpool_present_tail p s cmds false =
      ⟨Outcome.exitJson false none, s,
        cmds ++ (set_zpool_options p.name (pool_options p)).1⟩ := by
  have hfalse : pyTruthyOptBool (set_zpool_options p.name (pool_options p)).2
      = false := rfl
  simp only [zpool_present_tail, hfalse, Bool.false_eq_true, if_false]
  rw [hot_spare_loop_noop p.name p.hot_spare s _ false h]

/-- Reduction of the zpool present branch when the pool already exists. -/
theorem zpool_present_run_exists (p : PParams) (s : ZfsState)
    (hex : check_zpool_exists s p.name = true) :
    zpool_present_run p s = zpool_present_tail p s [] false := by
  simp [zpool_present_run, hex]

/-- When the pool exists and every declared spare is attached, the zpool
present branch reports changed=false. -/
theorem zpool_present_run_unchanged (p : PParams) (s : ZfsState)
    (hex : check_zpool_exists s p.name = true)
    (hsp : ∀ d ∈ p.hot_spare, hotspare_exists s p.name d = true) :
    (zpool_present_run p s).outcome = Outcome.exitJson false none := by
  rw [zpool_present_run_exists p s hex,
    zpool_present_tail_unchanged p s [] hsp]

/-- A zpool present run that exited successfully leaves the pool existing
and every declared spare attached. -/
theorem zpool_present_run_post (p : PParams) (s : ZfsState) (c : Bool)
    (m : Option String)
    (h : (zpool_present_run p s).outcome = Outcome.exitJson c m) :
    check_zpool_exists (zpool_present_run p s).state p.name = true ∧
      ∀ d ∈ p.hot_spare,
        hotspare_exists (zpool_present_run p s).state p.name d = true := by
  by_cases hex : check_zpool_exists s p.name = true
  · rw [zpool_present_run_exists p s hex]
    refine ⟨?_, fun d hd => zpool_present_tail_attached p s [] false d hd⟩
    unfold check_zpool_exists at hex ⊢
    rw [zpool_present_tail_pools p s [] false]
    exact hex
  · rw [Bool.not_eq_true] at hex
    simp only [zpool_present_run, hex, Bool.not_false, Bool.true_and,
      if_true] at h ⊢
    by_cases hguard : (!p.hot_spare.isEmpty && p.disks.isEmpty) = true
    · rw [if_pos hguard] at h
      simp at h
    · rw [if_neg hguard] at h ⊢
      cases hval : validate_raid_disks p.raidz p.disks with
      | some msg => rw [hval] at h; exact Outcome.noConfusion h
      | none =>
          refine ⟨?_, fun d hd =>
            zpool_present_tail_attached p (envCreatePool p.name s) _ true d hd⟩
          show check_zpool_exists
            (zpool_present_tail p (envCreatePool p.name s)
              [create_zpool_cmd p.name p.raidz p.disks] true).state p.name = true
          unfold check_zpool_exists
          rw [zpool_present_tail_pools]
          simp [envCreatePool]

/-- Second zpool absent run after a non-check-mode first run reports
changed=false: either the pool was destroyed or it never existed. -/
theorem zpool_absent_run_idem (p : PParams) (s : ZfsState)
    (hcm : p.check_mode = false) :
    (zpool_absent_run p (zpool_absent_run p s).state).outcome =
      Outcome.exitJson false none := by
  by_cases hex : check_zpool_exists s p.name = true
  · simp only [zpool_absent_run, hex, hcm, if_true, if_false,
      Bool.false_eq_true]
    simp [check_zpool_exists_envDestroyPool]
  · rw [Bool.not_eq_true] at hex
    simp [zpool_absent_run, hex]

/-- A successful non-check-mode volume run leaves the state converged: a
second run with the same parameters reports changed=false. -/
theorem volume_run_idem (p : PParams) (s : ZfsState) (c : Bool)
    (m : Option String) (hcm : p.check_mode = false)
    (h : (volume_run p s).outcome = Outcome.exitJson c m) :
    ∃ m2, (volume_run p (volume_run p s).state).outcome =
      Outcome.exitJson false m2 := by
  by_cases hsz : pyTruthyOptStr p.size = true
  · cases hst : p.state with
    | present =>
        by_cases hv : check_volume_exists s p.name = true
        · refine ⟨some (volume_exists_msg p.name), ?_⟩
          simp [volume_run, hsz, hst, hv, hcm]
        · rw [Bool.not_eq_true] at hv
          refine ⟨some (volume_exists_msg p.name), ?_⟩
          simp [volume_run, hsz, hst, hv, hcm,
            check_volume_exists_envCreateVolume]
    | absent =>
        by_cases hv : check_volume_exists s p.name = true
        · refine ⟨none, ?_⟩
          simp [volume_run, hsz, hst, hv, hcm,
            check_volume_exists_envDestroyVolume]
        · rw [Bool.not_eq_true] at hv
          refine ⟨none, ?_⟩
          simp [volume_run, hsz, hst, hv, hcm]
  · rw [Bool.not_eq_true] at hsz
    rw [show volume_run p s =
      ⟨Outcome.failJson size_required_volume_msg, s, []⟩ from by
        simp [volume_run, hsz]] at h
    exact Outcome.noConfusion h

/-- A successful non-check-mode cache run leaves the backing volume present
and the cache device attached, so a second run reports changed=false. -/
theorem cache_run_idem (p : PParams) (s : ZfsState) (c : Bool)
    (m : Option String) (hcm : p.check_mode = false)
    (h : (cache_run p s).outcome = Outcome.exitJson c m) :
    ∃ m2, (cache_run p (cache_run p s).state).outcome =
      Outcome.exitJson false m2 := by
  by_cases hreq : (!(pyTruthyOptStr p.size) || !(pyTruthyOptStr p.zpool)) = true
  · rw [show cache_run p s =
      ⟨Outcome.failJson size_zpool_required_msg, s, []⟩ from by
        simp only [cache_run, hreq, if_true]] at h
    exact Outcome.noConfusion h
  · have hreq2 := hreq
    rw [Bool.not_eq_true] at hreq2
    refine ⟨some (cache_ensured_msg p.name (p.zpool.getD "")), ?_⟩
    by_cases hv : check_volume_exists s p.name = true
    · by_cases hca : cache_device_exists s (p.zpool.getD "")
          ("/dev/zvol/" ++ p.name) = true
      · simp [cache_run, hreq2, hv, hca, hcm]
      · rw [Bool.not_eq_true] at hca
        simp [cache_run, hreq2, hv, hca, hcm, check_volume_exists_envAddCache,
          cache_device_exists_envAddCache]
    · rw [Bool.not_eq_true] at hv
      by_cases hca : cache_device_exists s (p.zpool.getD "")
          ("/dev/zvol/" ++ p.name) = true
      · simp [cache_run, hreq2, hv, hca, hcm,
          cache_device_exists_envCreateVolume,
          check_volume_exists_envCreateVolume]
      · rw [Bool.not_eq_true] at hca
        simp [cache_run, hreq2, hv, hca, hcm,
          cache_device_exists_envCreateVolume,
          check_volume_exists_envCreateVolume, check_volume_exists_envAddCache,
          cache_device_exists_envAddCache]

/-- C1: for every resource kind and fixed actual state, a second
reconciliation run of src/plugins/modules/zfs_manager.py with the identical
desired state, started from the state a successful first run left behind,
reports changed=false: every mutating step (pool and volume creation, spare
attachment, cache attachment) is guarded by an existence or membership
check that is satisfied after the first run.  check_mode is false, which is
the only reachable configuration since the module declares
supports_check_mode=False. -/
theorem plugins_second_run_unchanged (p : PParams) (s : ZfsState) (c : Bool)
    (m : Option String) (hcm : p.check_mode = false)
    (h : (pluginsRun p s).outcome = Outcome.exitJson c m) :
    ∃ m2, (pluginsRun p (pluginsRun p s).state).outcome =
      Outcome.exitJson false m2 := by
  cases htp : p.type with
  | zpool =>
      cases hst : p.state with
      | present =>
          have hrun : pluginsRun p s = zpool_present_run p s := by
            simp [pluginsRun, htp, hst]
          rw [hrun] at h ⊢
          obtain ⟨h1, h2⟩ := zpool_present_run_post p s c m h
          refine ⟨none, ?_⟩
          rw [show pluginsRun p (zpool_present_run p s).state =
            zpool_present_run p (zpool_present_run p s).state from by
              simp [pluginsRun, htp, hst]]
          exact zpool_present_run_unchanged p _ h1 h2
      | absent =>
          have hrun : ∀ t, pluginsRun p t = zpool_absent_run p t := by
            intro t; simp [pluginsRun, htp, hst]
          rw [hrun, hrun]
          exact ⟨none, zpool_absent_run_idem p s hcm⟩
  | volume =>
      have hrun : ∀ t, pluginsRun p t = volume_run p t := by
        intro t; simp [pluginsRun, htp]
      rw [hrun] at h
      rw [hrun, hrun]
      exact volume_run_idem p s c m hcm h
  | cache =>
      have hrun : ∀ t, pluginsRun p t = cache_run p t := by
        intro t; simp [pluginsRun, htp]
      rw [hrun] at h
      rw [hrun, hrun]
      exact cache_run_idem p s c m hcm h

/-- Witness for C1: creating the mirror pool tank on the empty subsystem
reports changed=true, and the immediate re-run reports changed=false. -/
theorem plugins_second_run_unchanged_witness :
    pPoolCreate.check_mode = false ∧
      (pluginsRun pPoolCreate emptyState).outcome =
        Outcome.exitJson true none ∧
      ∃ m2, (pluginsRun pPoolCreate
          (pluginsRun pPoolCreate emptyState).state).outcome =
        Outcome.exitJson false m2 :=
  ⟨rfl, by decide,
    plugins_second_run_unchanged pPoolCreate emptyState true none rfl
      (by decide)⟩

/-- C2 counterexample: the scheme raidz1 lies outside the five redundancy
schemes of the specification, yet validate_raid_disks accepts it (with
three disks) instead of rejecting it as unknown. -/
theorem validate_accepts_raidz1_counterexample :
    validate_raid_disks "raidz1" ["sda", "sdb", "sdc"] = none ∧
      "raidz1" ∉
        (["stripe", "mirror", "raidz", "raidz2", "raidz3"] : List String) := by
  exact ⟨rfl, by decide⟩

/-- C2 amended: validation rejects a below-minimum disk count before any
mutating command with minima stripe:1, mirror:2, raidz:3, raidz2:4,
raidz3:5, accepts raidz1 as an alias of raidz with minimum 3, and rejects
every scheme outside the six-key table with a message listing stripe,
mirror, raidz, raidz1, raidz2, raidz3; raidz2 with 3 disks is rejected and
with 4 disks passes. -/
theorem validate_raid_disks_amended :
    (∀ disks : List String,
        validate_raid_disks "stripe" disks = none ↔ 1 ≤ disks.length) ∧
    (∀ disks : List String,
        validate_raid_disks "mirror" disks = none ↔ 2 ≤ disks.length) ∧
    (∀ disks : List String,
        validate_raid_disks "raidz" disks = none ↔ 3 ≤ disks.length) ∧
    (∀ disks : List String,
        validate_raid_disks "raidz1" disks = none ↔ 3 ≤ disks.length) ∧
    (∀ disks : List String,
        validate_raid_disks "raidz2" disks = none ↔ 4 ≤ disks.length) ∧
    (∀ disks : List String,
        validate_raid_disks "raidz3" disks = none ↔ 5 ≤ disks.length) ∧
    (∀ raid_type : String, ∀ disks : List String,
        raid_type ∉ raid_min_disks_keys →
        validate_raid_disks raid_type disks = some (invalid_raid_msg raid_type)) ∧
    (∀ (p : PParams) (s : ZfsState) (msg : String),
        p.type = ObjType.zpool → p.state = Intent.present →
        check_zpool_exists s p.name = false →
        (p.hot_spare = [] ∨ p.disks ≠ []) →
        validate_raid_disks p.raidz p.disks = some msg →
        pluginsRun p s = ⟨Outcome.failJson msg, s, []⟩) ∧
    validate_raid_disks "raidz2" ["sda", "sdb", "sdc"] ≠ none ∧
    validate_raid_disks "raidz2" ["sda", "sdb", "sdc", "sdd"] = none := by
  have hscheme : ∀ (rt mtxt : String) (mn : Nat), ∀ disks : List String,
      (validate_raid_disks rt disks =
        if disks.length < mn then some (too_few_disks_msg mtxt mn disks)
        else none) →
      (validate_raid_disks rt disks = none ↔ mn ≤ disks.length) := by
    intro rt mtxt mn disks heq
    rw [heq]
    rcases Nat.lt_or_ge disks.length mn with hlt | hge
    · rw [if_pos hlt]
      simp
      omega
    · rw [if_neg (Nat.not_lt.mpr hge)]
      simp
      omega
  refine ⟨fun d => hscheme "stripe" "stripe" 1 d rfl,
    fun d => hscheme "mirror" "mirror" 2 d rfl,
    fun d => hscheme "raidz" "raidz" 3 d rfl, ?_,
    fun d => hscheme "raidz2" "raidz2" 4 d rfl,
    fun d => hscheme "raidz3" "raidz3" 5 d rfl, ?_, ?_, by decide, rfl⟩
  · intro disks
    exact hscheme "raidz1" "raidz" 3 disks rfl
  · intro raid_type disks hmem
    simp only [raid_min_disks_keys, List.mem_cons, List.not_mem_nil,
      or_false] at hmem
    push_neg at hmem
    obtain ⟨h1, h2, h3, h4, h5, h6⟩ := hmem
    simp [validate_raid_disks, raid_min_disks_get, h1, h2, h3, h4, h5, h6]
  · intro p s msg ht hst hex hg hval
    have hrun : pluginsRun p s = zpool_present_run p s := by
      simp [pluginsRun, ht, hst]
    rw [hrun]
    have hguard : (!p.hot_spare.isEmpty && p.disks.isEmpty) = false := by
      rcases hg with hg | hg
      · simp [hg]
      · rcases hd : p.disks with _ | ⟨a, t⟩
        · exact absurd hd hg
        · simp
    simp only [zpool_present_run, hex, Bool.not_false, Bool.true_and, hguard,
      Bool.false_eq_true, if_false, if_true, hval]

/-- Witness for C2 amended: an unknown scheme is rejected with the six-key
list, and a raidz2 request on three disks against a missing pool fails
before any command. -/
theorem validate_raid_disks_amended_witness :
    validate_raid_disks "bogus" ["sda"] = some (invalid_raid_msg "bogus") ∧
      pluginsRun pPoolRaidz2Three emptyState =
        ⟨Outcome.failJson (too_few_disks_msg "raidz2" 4 ["sda", "sdb", "sdc"]),
          emptyState, []⟩ :=
  ⟨validate_raid_disks_amended.2.2.2.2.2.2.1 "bogus" ["sda"] (by decide),
   validate_raid_disks_amended.2.2.2.2.2.2.2.1 pPoolRaidz2Three emptyState _
     rfl rfl (by decide) (Or.inl rfl) rfl⟩

/-- C3 counterexample: in src/library/kuit_zfs_zpool.py an absent request
for the non-existing pool tank does not return changed=false; it fails with
an explicit fail_json. -/
theorem kuit_absent_on_absent_fails_counterexample :
    check_for_zpool emptyState "tank" = false ∧
      kuitRun kPoolAbsent emptyState =
        (Outcome.failJson "Unable to destroy zpool. No such zpool", []) := by
  exact ⟨rfl, by decide⟩

/-- C3 amended: in src/plugins/modules/zfs_manager.py an absent request for
a non-existing pool, or for a non-existing volume whose request carries a
size, exits with changed=false, no error and no command (the cache kind has
no absent handling there and always runs its ensure logic); in
src/library/kuit_zfs_zpool.py the same absent-on-absent request instead
fails with the message Unable to destroy zpool. No such zpool. -/
theorem absent_on_absent_amended :
    (∀ (p : PParams) (s : ZfsState), p.type = ObjType.zpool →
        p.state = Intent.absent → check_zpool_exists s p.name = false →
        pluginsRun p s = ⟨Outcome.exitJson false none, s, []⟩) ∧
    (∀ (p : PParams) (s : ZfsState), p.type = ObjType.volume →
        p.state = Intent.absent → pyTruthyOptStr p.size = true →
        check_volume_exists s p.name = false →
        pluginsRun p s = ⟨Outcome.exitJson false none, s, []⟩) ∧
    (∀ (q : KParams) (s : ZfsState), q.state = "absent" →
        q.check_mode = false → check_for_zpool s q.name = false →
        kuitRun q s =
          (Outcome.failJson "Unable to destroy zpool. No such zpool", [])) := by
  refine ⟨?_, ?_, ?_⟩
  · intro p s ht hst hex
    have hrun : pluginsRun p s = zpool_absent_run p s := by
      simp [pluginsRun, ht, hst]
    rw [hrun]
    simp [zpool_absent_run, hex]
  · intro p s ht hst hsz hv
    have hrun : pluginsRun p s = volume_run p s := by
      simp [pluginsRun, ht]
    rw [hrun]
    simp [volume_run, hsz, hst, hv]
  · intro q s hst hcm hex
    simp [kuitRun, hst, hcm, hex]

/-- Witness for C3 amended: concrete absent-on-absent runs of the plugins
module (pool tank, volume vol0) and of the kuit module on the empty
subsystem state. -/
theorem absent_on_absent_amended_witness :
    pluginsRun pPoolAbsent emptyState =
        ⟨Outcome.exitJson false none, emptyState, []⟩ ∧
      pluginsRun
          ⟨"vol0", ObjType.volume, some "10G", none, "stripe", [], [], false,
            false, Intent.absent, false⟩ emptyState =
        ⟨Outcome.exitJson false none, emptyState, []⟩ ∧
      kuitRun kPoolAbsent emptyState =
        (Outcome.failJson "Unable to destroy zpool. No such zpool", []) :=
  ⟨absent_on_absent_amended.1 pPoolAbsent emptyState rfl rfl rfl,
   absent_on_absent_amended.2.1 _ emptyState rfl rfl rfl rfl,
   absent_on_absent_amended.2.2 kPoolAbsent emptyState rfl rfl rfl⟩

/-- C4: a cache request whose backing volume is missing and whose target
pool lacks the cache device issues exactly the create-volume command
followed by the add-cache command, the attached device path is the literal
prefix /dev/zvol/ concatenated with the volume name, and the run reports
changed=true. -/
theorem cache_plan_order_and_device_path (p : PParams) (s : ZfsState)
    (sz pz : String) (ht : p.type = ObjType.cache) (hsz : p.size = some sz)
    (hszne : sz ≠ "") (hpz : p.zpool = some pz) (hpzne : pz ≠ "")
    (hcm : p.check_mode = false)
    (hv : check_volume_exists s p.name = false)
    (hc : cache_device_exists s pz ("/dev/zvol/" ++ p.name) = false) :
    (pluginsRun p s).cmds =
      [create_volume_cmd p.name sz,
       add_cache_cmd pz ("/dev/zvol/" ++ p.name)] ∧
    (pluginsRun p s).outcome =
      Outcome.exitJson true (some (cache_ensured_msg p.name pz)) := by
  have hrun : pluginsRun p s = cache_run p s := by
    simp [pluginsRun, ht]
  have hsz2 : pyTruthyOptStr p.size = true := by
    simp [pyTruthyOptStr, pyTruthyStr, hsz, hszne]
  have hpz2 : pyTruthyOptStr p.zpool = true := by
    simp [pyTruthyOptStr, pyTruthyStr, hpz, hpzne]
  have hgd1 : p.size.getD "" = sz := by rw [hsz]; rfl
  have hgd2 : p.zpool.getD "" = pz := by rw [hpz]; rfl
  have hc1 : cache_device_exists (envCreateVolume p.name s) pz
      ("/dev/zvol/" ++ p.name) = false := by
    rw [cache_device_exists_envCreateVolume]
    exact hc
  rw [hrun]
  simp only [cache_run, hsz2, hpz2, hgd1, hgd2, hcm, hv, hc1, Bool.not_true,
    Bool.not_false, Bool.or_self, Bool.false_eq_true, if_false, if_true,
    Bool.and_false, Bool.true_and]
  constructor <;> first
    | rfl
    | trivial

/-- Witness for C4: the cachevol request on the empty subsystem issues the
two commands in order and reports changed=true. -/
theorem cache_plan_order_witness :
    (pluginsRun pCache emptyState).cmds =
      [create_volume_cmd "cachevol" "10G",
       add_cache_cmd "tank" ("/dev/zvol/" ++ "cachevol")] ∧
    (pluginsRun pCache emptyState).outcome =
      Outcome.exitJson true (some (cache_ensured_msg "cachevol" "tank")) :=
  cache_plan_order_and_device_path pCache emptyState "10G" "tank" rfl rfl
    (by decide) rfl (by decide) rfl rfl rfl

/-- C5: for src/library/zfs_manager.py (the variant that declares
supports_check_mode=True), a check-mode run and a real run started from the
same actual state report the same changed verdict, and the check-mode run
issues no mutating command. -/
theorem lib_dry_run_fidelity (name : String) (ty : LType)
    (size : Option String) (raidz : String) (disks : List String)
    (compression canmount state : String) (s : ZfsState) :
    changedOf (libRun
        ⟨name, ty, size, raidz, disks, compression, canmount, state, true⟩
        s).1 =
      changedOf (libRun
        ⟨name, ty, size, raidz, disks, compression, canmount, state, false⟩
        s).1 ∧
    (libRun ⟨name, ty, size, raidz, disks, compression, canmount, state, true⟩
        s).2 = [] := by
  cases ty <;>
    simp only [libRun] <;>
    split_ifs <;>
    simp_all [changedOf]

/-- C6: a present request for a not-yet-existing pool that declares hot
spares but no member disks is rejected before any mutating command. -/
theorem spares_without_disks_rejected (p : PParams) (s : ZfsState)
    (ht : p.type = ObjType.zpool) (hst : p.state = Intent.present)
    (hex : check_zpool_exists s p.name = false) (hsp : p.hot_spare ≠ [])
    (hd : p.disks = []) :
    pluginsRun p s =
      ⟨Outcome.failJson (spares_without_disks_msg p.name), s, []⟩ := by
  have hrun : pluginsRun p s = zpool_present_run p s := by
    simp [pluginsRun, ht, hst]
  have hsp2 : p.hot_spare.isEmpty = false := by
    rcases hh : p.hot_spare with _ | ⟨a, t⟩
    · exact absurd hh hsp
    · simp
  rw [hrun]
  simp [zpool_present_run, hex, hsp2, hd]

/-- Witness for C6: hot spare sdc with no disks on the empty subsystem is
rejected with no command issued. -/
theorem spares_without_disks_rejected_witness :
    pluginsRun pPoolSpareNoDisks emptyState =
      ⟨Outcome.failJson (spares_without_disks_msg "tank"), emptyState, []⟩ :=
  spares_without_disks_rejected pPoolSpareNoDisks emptyState rfl rfl rfl
    (by decide) rfl

/-- Membership of an add-spare command in the hot-spare loop trace:
the loop adds the command for device d exactly when d is listed and was not
attached when the loop reached it; relative to the entry state this is
membership in the list and non-attachment at entry. -/
theorem hot_spare_loop_cmd_iff (n : String) (l : List String) (s : ZfsState)
    (cmds : List (List String)) (ch : Bool) (d : String) :
    add_hotspare_cmd n d ∈ (hot_spare_loop n l s cmds ch).2.1 ↔
      (add_hotspare_cmd n d ∈ cmds ∨
        (d ∈ l ∧ hotspare_exists s n d = false)) := by
  induction l generalizing s cmds ch with
  | nil => simp [hot_spare_loop]
  | cons a rest ih =>
      simp only [hot_spare_loop]
      split
      case isTrue hex =>
          rw [ih]
          constructor
          · rintro (hc | ⟨hd, hne⟩)
            · exact Or.inl hc
            · exact Or.inr ⟨List.mem_cons_of_mem a hd, hne⟩
          · rintro (hc | ⟨hd, hne⟩)
            · exact Or.inl hc
            · rcases List.mem_cons.mp hd with rfl | hd2
              · rw [hex] at hne
                exact absurd hne (by simp)
              · exact Or.inr ⟨hd2, hne⟩
      case isFalse hex =>
          rw [Bool.not_eq_true] at hex
          rw [ih]
          have hmem : add_hotspare_cmd n d ∈ cmds ++ [add_hotspare_cmd n a] ↔
              (add_hotspare_cmd n d ∈ cmds ∨ d = a) := by
            simp [add_hotspare_cmd]
          have hafter : hotspare_exists (envAddSpare n a s) n d = false ↔
              (¬d = a ∧ hotspare_exists s n d = false) := by
            simp [hotspare_exists, envAddSpare, Prod.ext_iff]
          rw [hmem, hafter]
          by_cases hda : d = a
          · subst hda
            simp [hex]
          · simp only [hda, or_false, not_false_iff, true_and]
            constructor
            · rintro (hc | ⟨hd, hne⟩)
              · exact Or.inl hc
              · exact Or.inr ⟨List.mem_cons_of_mem a hd, hne⟩
            · rintro (hc | ⟨hd, hne⟩)
              · exact Or.inl hc
              · rcases List.mem_cons.mp hd with rfl | hd2
                · exact absurd rfl hda
                · exact Or.inr ⟨hd2, hne⟩

/-- An add-spare command never coincides with an option-setting command. -/
theorem add_hotspare_cmd_not_set (n d name option : String) :
    add_hotspare_cmd n d ≠ ["zfs", "set", option, name] := by
  simp [add_hotspare_cmd]

/-- C7: in the pool present path against an existing pool, an add-spare
command for device d is issued if and only if d is declared and the
inspector does not already report it attached; in particular an attached
spare is never re-added. -/
theorem add_spare_iff_not_attached (p : PParams) (s : ZfsState) (d : String)
    (ht : p.type = ObjType.zpool) (hst : p.state = Intent.present)
    (hex : check_zpool_exists s p.name = true) :
    add_hotspare_cmd p.name d ∈ (pluginsRun p s).cmds ↔
      (d ∈ p.hot_spare ∧ hotspare_exists s p.name d = false) := by
  have hrun : pluginsRun p s = zpool_present_run p s := by
    simp [pluginsRun, ht, hst]
  rw [hrun, zpool_present_run_exists p s hex]
  simp only [zpool_present_tail]
  rw [hot_spare_loop_cmd_iff]
  have hso : (set_zpool_options p.name (pool_options p)).1 =
      [["zfs", "set",
          (if p.compression then "compression=on" else "compression=off"),
          p.name],
       ["zfs", "set",
          (if p.canmount then "canmount=on" else "canmount=off"),
          p.name]] := rfl
  rw [List.nil_append, hso]
  simp only [List.mem_cons, List.not_mem_nil, or_false]
  constructor
  · rintro ((hc | hc) | hc)
    · exact absurd hc (add_hotspare_cmd_not_set p.name d p.name _)
    · exact absurd hc (add_hotspare_cmd_not_set p.name d p.name _)
    · exact hc
  · intro hc
    exact Or.inr hc

/-- Witness for C7: with pool tank existing and spare sdc already attached,
no add-spare command is issued for sdc. -/
theorem add_spare_iff_not_attached_witness :
    ¬ (add_hotspare_cmd "tank" "sdc" ∈
        (pluginsRun pPoolSpare tankSpareState).cmds) := by
  intro hmem
  have h := (add_spare_iff_not_attached pPoolSpare tankSpareState "sdc" rfl
    rfl (by decide)).mp hmem
  exact absurd h.2 (by decide)

/-- The first command of the hot-spare loop trace is the first command that
entered it. -/
theorem hot_spare_loop_cmds_head (n : String) (l : List String) (s : ZfsState)
    (c : List String) (cs : List (List String)) (ch : Bool) :
    (hot_spare_loop n l s (c :: cs) ch).2.1.head? = some c := by
  obtain ⟨extra, hx⟩ := hot_spare_loop_cmds_extend n l s (c :: cs) ch
  rw [hx]
  rfl

/-- The spares-without-disks guard is inert when no spare is declared or
some disk is declared. -/
theorem spares_guard_false (p : PParams)
    (hg : p.hot_spare = [] ∨ p.disks ≠ []) :
    (!p.hot_spare.isEmpty && p.disks.isEmpty) = false := by
  rcases hg with hg | hg
  · simp [hg]
  · rcases hd : p.disks with _ | ⟨a, t⟩
    · exact absurd hd hg
    · simp

/-- C8: on the creation path, both src/plugins/modules/zfs_manager.py and
src/library/kuit_zfs_zpool.py issue the pool-creation command with the
exact argument shape create name [scheme] disk..., the scheme token being
omitted exactly when the scheme is stripe. -/
theorem create_zpool_cmd_shape (p : PParams) (s : ZfsState) (q : KParams)
    (t : ZfsState) (ht : p.type = ObjType.zpool)
    (hst : p.state = Intent.present)
    (hex : check_zpool_exists s p.name = false)
    (hg : p.hot_spare = [] ∨ p.disks ≠ [])
    (hval : validate_raid_disks p.raidz p.disks = none)
    (hqs : q.state = "present") (hqc : q.check_mode = false)
    (hqe : check_for_zpool t q.name = false) :
    (pluginsRun p s).cmds.head? =
      some (["zpool", "create", p.name] ++
        (if p.raidz ≠ "stripe" then [p.raidz] else []) ++ p.disks) ∧
    (kuitRun q t).2.head? =
      some (["zpool", "create", q.name] ++
        (if q.type ≠ "stripe" then [q.type] else []) ++ q.disks) := by
  constructor
  · have hrun : pluginsRun p s = zpool_present_run p s := by
      simp [pluginsRun, ht, hst]
    rw [hrun]
    simp only [zpool_present_run, hex, Bool.not_false, Bool.true_and,
      spares_guard_false p hg, Bool.false_eq_true, if_false, if_true, hval]
    simp only [zpool_present_tail]
    exact hot_spare_loop_cmds_head p.name p.hot_spare _ _ _ _
  · by_cases hty : q.type = "stripe"
    · simp [kuitRun, hqs, hqc, hqe, hty, kuit_create_zpool_stripe_cmd]
    · simp [kuitRun, hqs, hqc, hqe, hty, kuit_create_zpool_raid_cmd]

/-- Witness for C8: creating mirror pool tank via the plugins module and
stripe pool tank via the kuit module on the empty subsystem. -/
theorem create_zpool_cmd_shape_witness :
    (pluginsRun pPoolCreate emptyState).cmds.head? =
      some ["zpool", "create", "tank", "mirror", "sda", "sdb"] ∧
    (kuitRun kPoolCreate emptyState).2.head? =
      some ["zpool", "create", "tank", "sda"] := by
  have h := create_zpool_cmd_shape pPoolCreate emptyState kPoolCreate
    emptyState rfl rfl rfl (Or.inl rfl) rfl rfl rfl rfl
  exact ⟨by rw [h.1]; rfl, by rw [h.2]; rfl⟩

/-- Commands already in the trace survive the hot-spare loop. -/
theorem hot_spare_loop_cmds_mono (n : String) (l : List String) (s : ZfsState)
    (cmds : List (List String)) (ch : Bool) (c : List String) (h : c ∈ cmds) :
    c ∈ (hot_spare_loop n l s cmds ch).2.1 := by
  obtain ⟨extra, hx⟩ := hot_spare_loop_cmds_extend n l s cmds ch
  rw [hx]
  exact List.mem_append_left _ h

/-- C9: scheme and disk-count validation runs only on the creation path.
Against an existing pool a present request always exits successfully (never
fail_json) and both option-setting commands are issued, for every scheme
string and disk list, including unknown schemes and below-minimum counts. -/
theorem existing_pool_skips_validation (p : PParams) (s : ZfsState)
    (ht : p.type = ObjType.zpool) (hst : p.state = Intent.present)
    (hex : check_zpool_exists s p.name = true) :
    (∃ b, (pluginsRun p s).outcome = Outcome.exitJson b none) ∧
    ["zfs", "set",
        (if p.compression then "compression=on" else "compression=off"),
        p.name] ∈ (pluginsRun p s).cmds ∧
    ["zfs", "set",
        (if p.canmount then "canmount=on" else "canmount=off"),
        p.name] ∈ (pluginsRun p s).cmds := by
  have hrun : pluginsRun p s = zpool_present_run p s := by
    simp [pluginsRun, ht, hst]
  rw [hrun, zpool_present_run_exists p s hex]
  simp only [zpool_present_tail]
  refine ⟨⟨_, rfl⟩, ?_, ?_⟩
  · exact hot_spare_loop_cmds_mono _ _ _ _ _ _ (List.mem_cons_self _ _)
  · exact hot_spare_loop_cmds_mono _ _ _ _ _ _
      (List.mem_cons_of_mem _ (List.mem_cons_self _ _))

/-- Witness for C9: a request with the unknown scheme bogus and zero disks
against the existing pool tank is accepted and its option commands run. -/
theorem existing_pool_skips_validation_witness :
    (∃ b, (pluginsRun pPoolBogus tankState).outcome =
        Outcome.exitJson b none) ∧
    ["zfs", "set", "compression=off", "tank"] ∈
        (pluginsRun pPoolBogus tankState).cmds ∧
    ["zfs", "set", "canmount=off", "tank"] ∈
        (pluginsRun pPoolBogus tankState).cmds :=
  existing_pool_skips_validation pPoolBogus tankState rfl rfl rfl

/-- C10: set_zpool_options returns None, so the option step can never raise
the changed flag of the pool present path; against an existing pool whose
declared spares are all attached the run reports changed=false whatever
option values were applied. -/
theorem set_options_never_changed (p : PParams) (s : ZfsState)
    (ht : p.type = ObjType.zpool) (hst : p.state = Intent.present)
    (hex : check_zpool_exists s p.name = true)
    (hsp : ∀ d ∈ p.hot_spare, hotspare_exists s p.name d = true) :
    (∀ (name : String) (options : List String),
        (set_zpool_options name options).2 = none) ∧
    (pluginsRun p s).outcome = Outcome.exitJson false none := by
  refine ⟨fun name options => rfl, ?_⟩
  have hrun : pluginsRun p s = zpool_present_run p s := by
    simp [pluginsRun, ht, hst]
  rw [hrun]
  exact zpool_present_run_unchanged p s hex hsp

/-- Witness for C10: pool tank exists with spare sdc attached; the request
declaring that spare with compression=true reports changed=false. -/
theorem set_options_never_changed_witness :
    (∀ (name : String) (options : List String),
        (set_zpool_options name options).2 = none) ∧
    (pluginsRun pPoolSpare tankSpareState).outcome =
      Outcome.exitJson false none :=
  set_options_never_changed pPoolSpare tankSpareState rfl rfl (by decide)
    (by decide)
